import Mathlib

/-!
Verification of the barter-rs concurrency/statistics core against its
natural-language specification.

Shallow embedding conventions:
* Rust `f64` equity and drawdown values are modelled as exact rationals `ℚ`
  (every operation used by the code is field arithmetic).
* `chrono::DateTime<Utc>` timestamps and `chrono::Duration` values are
  modelled as integers `ℤ` counting milliseconds; `Duration::zero()` is `0`,
  `signed_duration_since` is subtraction, `Duration::num_milliseconds` and
  `Duration::milliseconds` are the identity under this choice of unit.
* `&mut self` methods become functions `State → State` (or
  `State → State × result` when the method also returns a value).
-/

namespace Barter

/-- One day in milliseconds (`chrono::Duration::days(1).num_milliseconds()`). -/
def msPerDay : ℤ := 86400000

/-- `EquityPoint { equity: f64, timestamp: DateTime<Utc> }` from
`portfolio::position` (only its two public fields are used by the code
under verification). -/
structure EquityPoint where
  equity : ℚ
  timestamp : ℤ
deriving Repr, DecidableEq

/-- Modelled from the spec: `Range` from `statistic::dispersion`, whose source
file is not included (only its callers and the drawdown unit tests are).
Fields per spec §3: `{ activated: bool, high: f64, low: f64 }`. -/
structure Range where
  activated : Bool
  high : ℚ
  low : ℚ
deriving Repr, DecidableEq

/-- Modelled from the spec: `Range::update(value)` per spec §4.1 — if not
activated, set `high = low = value` and activate; else `high = max high value`,
`low = min low value`. Consistent with the in-repo drawdown unit tests. -/
def Range.update (self : Range) (value : ℚ) : Range :=
  if self.activated then
    { self with high := max self.high value, low := min self.low value }
  else
    { activated := true, high := value, low := value }

/-- Modelled from the spec: `Range::calculate()`. The spec's §4.1 words say it
returns `low - high`, but that contradicts both the in-repo drawdown unit tests
and the spec's own §8 concrete scenario (which require
`Drawdown::calculate = (low - high)/high` with the code computing
`-(Range::calculate())/high`, hence `Range::calculate = high - low`).
The in-repo tests are the authority, so this model returns `high - low`. -/
def Range.calculate (self : Range) : ℚ :=
  self.high - self.low

/-- Modelled from the spec: `Range::calculate()` taken literally at the spec's
§4.1 words — "returns `low - high` (a non-positive delta)". Used only to
compare the spec's words against the behaviour the repository pins down. -/
def Range.calculateSpecWords (self : Range) : ℚ :=
  self.low - self.high

namespace welford_online

/-- Modelled from the spec: `welford_online::calculate_mean` (source file not
included), Welford's incremental mean per spec §4.3:
`mean_n = mean_{n-1} + (x_n - mean_{n-1}) / n`. Instance at `f64`, modelled
over `ℚ`. -/
def calculate_mean (prev_mean new_value count : ℚ) : ℚ :=
  prev_mean + (new_value - prev_mean) / count

/-- Modelled from the spec: the same generic `calculate_mean` instantiated at
`i64` (used for the millisecond-scaled duration mean); `/` is Rust's `i64`
division, i.e. truncation toward zero, which is `Int.div`. -/
def calculate_mean_int (prev_mean new_value count : ℤ) : ℤ :=
  prev_mean + Int.tdiv (new_value - prev_mean) count

end welford_online

/-- `Drawdown` (src/src/statistic/metric/drawdown.rs lines 10-16): one
peak-to-trough episode of the equity curve. -/
structure Drawdown where
  equity_range : Range
  drawdown : ℚ
  start_timestamp : ℤ
  duration : ℤ
deriving Repr, DecidableEq

/-- `Drawdown::init(starting_equity)` (drawdown.rs lines 31-42). The source
sets `start_timestamp: Utc::now()`; the wall-clock instant is passed
explicitly as `now`. -/
def Drawdown.init (starting_equity : ℚ) (now : ℤ) : Drawdown :=
  { equity_range := { activated := true, high := starting_equity, low := starting_equity }
    drawdown := 0
    start_timestamp := now
    duration := 0 }

/-- `Drawdown::is_waiting_for_peak` (drawdown.rs lines 100-102):
`self.drawdown == 0.0`. -/
def Drawdown.is_waiting_for_peak (self : Drawdown) : Prop :=
  self.drawdown = 0

instance (self : Drawdown) : Decidable self.is_waiting_for_peak :=
  inferInstanceAs (Decidable (self.drawdown = 0))

/-- `Drawdown::calculate` (drawdown.rs lines 106-109):
`(-self.equity_range.calculate()) / self.equity_range.high`. -/
def Drawdown.calculate (self : Drawdown) : ℚ :=
  (-self.equity_range.calculate) / self.equity_range.high

/-- `Drawdown::update` (drawdown.rs lines 47-96): the four-way state machine
on `(is_waiting_for_peak, equity > high)`. Returns the updated state paired
with `Some finished` exactly in the state-D branch. -/
def Drawdown.update (self : Drawdown) (current : EquityPoint) : Drawdown × Option Drawdown :=
  if self.is_waiting_for_peak then
    if current.equity > self.equity_range.high then
      -- A) No current drawdown - waiting for next equity peak
      ({ self with equity_range := { self.equity_range with high := current.equity } }, none)
    else
      -- B) Start of new drawdown
      let updated :=
        { self with
            start_timestamp := current.timestamp
            equity_range := { self.equity_range with low := current.equity } }
      ({ updated with drawdown := updated.calculate }, none)
  else
    if current.equity > self.equity_range.high then
      -- D) End of drawdown
      let finished : Drawdown :=
        { equity_range := self.equity_range
          drawdown := self.drawdown
          start_timestamp := self.start_timestamp
          duration := self.duration }
      ({ self with
          drawdown := 0
          duration := 0
          equity_range := { self.equity_range with high := current.equity } },
       some finished)
    else
      -- C) Continuation of drawdown
      let updated :=
        { self with
            duration := current.timestamp - self.start_timestamp
            equity_range := self.equity_range.update current.equity }
      ({ updated with drawdown := updated.calculate }, none)

/-- Feed a list of `EquityPoint`s through `Drawdown::update`, returning the
final live state and the list of completed episodes emitted along the way. -/
def Drawdown.processAll (self : Drawdown) : List EquityPoint → Drawdown × List Drawdown
  | [] => (self, [])
  | p :: ps =>
    let step := self.update p
    let rest := step.1.processAll ps
    (rest.1, step.2.toList ++ rest.2)

/-- `impl Default for Drawdown` (drawdown.rs lines 18-27): default `Range`
(inactive, zero bounds), zero drawdown and duration; the source stamps
`Utc::now()`, passed here as `now`. -/
def Drawdown.defaultAt (now : ℤ) : Drawdown :=
  { equity_range := { activated := false, high := 0, low := 0 }
    drawdown := 0
    start_timestamp := now
    duration := 0 }

/-- `MaxDrawdown` (drawdown.rs lines 117-120). -/
structure MaxDrawdown where
  drawdown : Drawdown
deriving Repr, DecidableEq

/-- `MaxDrawdown::init()` (drawdown.rs lines 124-128). -/
def MaxDrawdown.init (now : ℤ) : MaxDrawdown :=
  { drawdown := Drawdown.defaultAt now }

/-- `MaxDrawdown::update` (drawdown.rs lines 132-136): replace the stored
drawdown iff the candidate has strictly larger absolute value. -/
def MaxDrawdown.update (self : MaxDrawdown) (next_drawdown : Drawdown) : MaxDrawdown :=
  if |next_drawdown.drawdown| > |self.drawdown.drawdown| then
    { drawdown := next_drawdown }
  else
    self

/-- `AvgDrawdown` (drawdown.rs lines 141-147). `count` is a Rust `u64`;
the claims under verification never approach `2^64` updates, so it is
modelled as `ℕ`. Durations are integer milliseconds, so
`mean_duration = Duration::milliseconds(mean_duration_milliseconds)` is the
identity on the underlying number. -/
structure AvgDrawdown where
  count : ℕ
  mean_drawdown : ℚ
  mean_duration : ℤ
  mean_duration_milliseconds : ℤ
deriving Repr, DecidableEq

/-- `AvgDrawdown::init()` / `Default` (drawdown.rs lines 149-165). -/
def AvgDrawdown.init : AvgDrawdown :=
  { count := 0, mean_drawdown := 0, mean_duration := 0, mean_duration_milliseconds := 0 }

/-- `AvgDrawdown::update` (drawdown.rs lines 168-184): increment the count and
fold the candidate's drawdown value and millisecond duration into the Welford
running means. -/
def AvgDrawdown.update (self : AvgDrawdown) (drawdown : Drawdown) : AvgDrawdown :=
  let count := self.count + 1
  let mean_drawdown :=
    welford_online.calculate_mean self.mean_drawdown drawdown.drawdown (count : ℚ)
  let mean_duration_milliseconds :=
    welford_online.calculate_mean_int self.mean_duration_milliseconds drawdown.duration
      (count : ℤ)
  { count := count
    mean_drawdown := mean_drawdown
    mean_duration := mean_duration_milliseconds
    mean_duration_milliseconds := mean_duration_milliseconds }

/-! ## Engine (src/src/engine/mod.rs) -/

/-- `PositionId` from `portfolio::position` (a string identifier). -/
abbrev PositionId := String

/-- `Command` (engine/mod.rs lines 40-50). -/
inductive Command where
  | terminate (msg : String)
  | exitAllPositions
  | exitPosition (id : PositionId)
deriving Repr, DecidableEq

/-- Modelled from the spec: `engine::error::EngineError` (source file not
included; only the `BuilderIncomplete` variant is referenced by the code
under verification — spec §7 "Builder incompleteness"). -/
inductive EngineError where
  | builderIncomplete
deriving Repr, DecidableEq

/-- Rust's `Option::ok_or`: `Some v ↦ Ok v`, `None ↦ Err err`. -/
def okOr (o : Option α) (err : EngineError) : Except EngineError α :=
  match o with
  | some v => .ok v
  | none => .error err

/-- `Engine` (engine/mod.rs lines 84-107). The six fields hold values of the
externally-provided component types; `traders` is the `Vec<Trader<..>>`. -/
structure Engine (Uuid CommandRx Commander Statistic Portfolio Trader : Type) where
  engine_id : Uuid
  command_rx : CommandRx
  trader_commander : Commander
  statistics : Statistic
  portfolio : Portfolio
  traders : List Trader

/-- `EngineBuilder` (engine/mod.rs lines 226-241): every field optional. -/
structure EngineBuilder (Uuid CommandRx Commander Statistic Portfolio Trader : Type) where
  engine_id : Option Uuid
  command_rx : Option CommandRx
  trader_commander : Option Commander
  statistics : Option Statistic
  portfolio : Option Portfolio
  traders : Option (List Trader)

/-- `EngineBuilder::new()` (engine/mod.rs lines 253-262). -/
def EngineBuilder.new : EngineBuilder Uuid CommandRx Commander Statistic Portfolio Trader :=
  { engine_id := none, command_rx := none, trader_commander := none
    statistics := none, portfolio := none, traders := none }

/-- `EngineBuilder::build()` (engine/mod.rs lines 306-322): each missing field
short-circuits with `EngineError::BuilderIncomplete`; otherwise the `Engine`
is assembled from the six supplied values. -/
def EngineBuilder.build (self : EngineBuilder Uuid CommandRx Commander Statistic Portfolio Trader) :
    Except EngineError (Engine Uuid CommandRx Commander Statistic Portfolio Trader) := do
  let engine_id ← okOr self.engine_id .builderIncomplete
  let command_rx ← okOr self.command_rx .builderIncomplete
  let trader_commander ← okOr self.trader_commander .builderIncomplete
  let statistics ← okOr self.statistics .builderIncomplete
  let portfolio ← okOr self.portfolio .builderIncomplete
  let traders ← okOr self.traders .builderIncomplete
  return { engine_id := engine_id, command_rx := command_rx
           trader_commander := trader_commander, statistics := statistics
           portfolio := portfolio, traders := traders }

/-- One resolution of the `tokio::select!` inside `Engine::run`'s wait loop
(engine/mod.rs lines 149-177): either the joined Trader tasks complete, or
`command_rx.recv()` yields `Some(command)`, or it yields `None` because the
channel closed. The loop body is modelled over the sequence of resolutions in
arrival order. -/
inductive RunEvent where
  | tradersFinished
  | commandReceived (command : Command)
  | channelClosed
deriving Repr, DecidableEq

/-- How `Engine::run`'s wait loop ends: `break` (shutdown), the `todo!()`
panic on a non-`Terminate` command, or — when no select arm ever resolves —
it stays pending forever. -/
inductive LoopResolution where
  | shutdown
  | todoPanic
  | pending
deriving Repr, DecidableEq

/-- The wait loop of `Engine::run` (engine/mod.rs lines 149-177): every select
arm either `break`s or hits `todo!()`, so the loop is decided by the first
resolved event: Trader completion breaks; `Some(Terminate(_))` breaks;
any other `Some(command)` reaches `todo!()`; `None` (channel closed) breaks. -/
def Engine.selectLoop : List RunEvent → LoopResolution
  | [] => .pending
  | .tradersFinished :: _ => .shutdown
  | .commandReceived (.terminate _) :: _ => .shutdown
  | .commandReceived _ :: _ => .todoPanic
  | .channelClosed :: _ => .shutdown

/-- Outcome of the end-of-run summary block (engine/mod.rs lines 213-220). -/
inductive SummaryOutcome (Position : Type) where
  | unwrapPanic
  | noSummaryInfo
  | summaryPrinted (positions : List Position)

/-- The summary block of `Engine::run` (engine/mod.rs lines 213-220):
`portfolio.get_exited_positions(..).unwrap()` panics on `Err`; `Ok(None)`
logs "no TradingSummary available"; `Ok(Some(closed_positions))` generates
and prints the summary. -/
def Engine.generateSummary {ε Position : Type} :
    Except ε (Option (List Position)) → SummaryOutcome Position
  | .error _ => .unwrapPanic
  | .ok none => .noSummaryInfo
  | .ok (some closed_positions) => .summaryPrinted closed_positions

/-- Overall outcome of `Engine::run`. -/
inductive RunOutcome (Position : Type) where
  | neverResolves
  | commandPanic
  | unwrapPanic
  | noSummaryInfo
  | summaryPrinted (positions : List Position)

/-- Embeds a summary outcome into the overall run outcome. -/
def SummaryOutcome.toRunOutcome {Position : Type} :
    SummaryOutcome Position → RunOutcome Position
  | .unwrapPanic => .unwrapPanic
  | .noSummaryInfo => .noSummaryInfo
  | .summaryPrinted ps => .summaryPrinted ps

/-- `Engine::run` (engine/mod.rs lines 140-221): the wait loop resolved over
`events`, followed — whenever the loop `break`s — by the summary block applied
to what `get_exited_positions` returns. -/
def Engine.runModel {ε Position : Type} (events : List RunEvent)
    (exited_positions : Except ε (Option (List Position))) : RunOutcome Position :=
  match Engine.selectLoop events with
  | .pending => .neverResolves
  | .todoPanic => .commandPanic
  | .shutdown => (Engine.generateSummary exited_positions).toRunOutcome

/-! ## Theorems -/

/-- C1: `Drawdown.update` implements the four-way state transition on
`(waiting_for_peak, equity > high)`: state A (waiting, equity above high)
only raises `high` and returns `None`; state B (waiting, equity not above
high) sets `start_timestamp` to the point's timestamp, sets `low` to the
equity, recomputes `drawdown`, and returns `None`; state C (not waiting,
equity not above high) updates `duration`, updates the range with the equity,
recomputes `drawdown`, and returns `None`; state D (not waiting, equity above
high) returns a snapshot of the current fields, resets `drawdown` and
`duration` to zero, and raises `high` to the new equity. In particular,
starting from equity 100, the sequence `[110, 100, 90, 95, 120]` opens an
episode at 100 with drawdown `-10/110`, deepens to `-20/110` at 90, and at
120 emits the completed episode (drawdown `-20/110`, low 90, high 110,
duration 2 days) while the live state resets to peak 120. -/
theorem drawdown_update_state_machine :
    (∀ (s : Drawdown) (c : EquityPoint), s.is_waiting_for_peak →
      c.equity > s.equity_range.high →
      s.update c = ({ s with equity_range := { s.equity_range with high := c.equity } }, none)) ∧
    (∀ (s : Drawdown) (c : EquityPoint), s.is_waiting_for_peak →
      ¬c.equity > s.equity_range.high →
      s.update c =
        ({ s with
            start_timestamp := c.timestamp
            equity_range := { s.equity_range with low := c.equity }
            drawdown := Drawdown.calculate
              { s with
                  start_timestamp := c.timestamp
                  equity_range := { s.equity_range with low := c.equity } } }, none)) ∧
    (∀ (s : Drawdown) (c : EquityPoint), ¬s.is_waiting_for_peak →
      ¬c.equity > s.equity_range.high →
      s.update c =
        ({ s with
            duration := c.timestamp - s.start_timestamp
            equity_range := s.equity_range.update c.equity
            drawdown := Drawdown.calculate
              { s with
                  duration := c.timestamp - s.start_timestamp
                  equity_range := s.equity_range.update c.equity } }, none)) ∧
    (∀ (s : Drawdown) (c : EquityPoint), ¬s.is_waiting_for_peak →
      c.equity > s.equity_range.high →
      s.update c =
        ({ s with
            drawdown := 0
            duration := 0
            equity_range := { s.equity_range with high := c.equity } },
         some { equity_range := s.equity_range, drawdown := s.drawdown
                start_timestamp := s.start_timestamp, duration := s.duration })) ∧
    ((Drawdown.init 100 0).processAll
        [⟨110, msPerDay⟩, ⟨100, 2 * msPerDay⟩]).1.drawdown = -10 / 110 ∧
    ((Drawdown.init 100 0).processAll
        [⟨110, msPerDay⟩, ⟨100, 2 * msPerDay⟩, ⟨90, 3 * msPerDay⟩]).1.drawdown = -20 / 110 ∧
    (Drawdown.init 100 0).processAll
        [⟨110, msPerDay⟩, ⟨100, 2 * msPerDay⟩, ⟨90, 3 * msPerDay⟩,
         ⟨95, 4 * msPerDay⟩, ⟨120, 5 * msPerDay⟩]
      = ({ equity_range := { activated := true, high := 120, low := 90 }
           drawdown := 0, start_timestamp := 2 * msPerDay, duration := 0 },
         [{ equity_range := { activated := true, high := 110, low := 90 }
            drawdown := -20 / 110, start_timestamp := 2 * msPerDay
            duration := 2 * msPerDay }]) := by
  refine ⟨?_, ?_, ?_, ?_, ?_, ?_, ?_⟩
  · intro s c h1 h2
    simp only [Drawdown.update, if_pos h1, if_pos h2]
  · intro s c h1 h2
    simp only [Drawdown.update, if_pos h1, if_neg h2]
  · intro s c h1 h2
    simp only [Drawdown.update, if_neg h1, if_neg h2]
  · intro s c h1 h2
    simp only [Drawdown.update, if_neg h1, if_pos h2]
  · norm_num [Drawdown.processAll, Drawdown.update, Drawdown.init, Drawdown.is_waiting_for_peak,
      Drawdown.calculate, Range.update, Range.calculate, msPerDay]
  · norm_num [Drawdown.processAll, Drawdown.update, Drawdown.init, Drawdown.is_waiting_for_peak,
      Drawdown.calculate, Range.update, Range.calculate, msPerDay]
  · norm_num [Drawdown.processAll, Drawdown.update, Drawdown.init, Drawdown.is_waiting_for_peak,
      Drawdown.calculate, Range.update, Range.calculate, msPerDay]

/-- Witness for C1: the state-A transition at a concrete input — a fresh
drawdown at starting equity 100 sees equity 110 and only raises the peak. -/
theorem drawdown_update_state_machine_witness :
    (Drawdown.init 100 0).update ⟨110, msPerDay⟩
      = ({ equity_range := { activated := true, high := 110, low := 100 }
           drawdown := 0, start_timestamp := 0, duration := 0 }, none) := by
  have h := drawdown_update_state_machine.1 (Drawdown.init 100 0) ⟨110, msPerDay⟩
    (by norm_num [Drawdown.init, Drawdown.is_waiting_for_peak])
    (by norm_num [Drawdown.init])
  simpa [Drawdown.init] using h

/-- C2, counterexample: the claim as stated is false. It asserts (a) the
spec's definition `Range.calculate() = low - high`, (b) that the code's live
drawdown value `-(Range.calculate())/high` equals `(low - high)/high`, and
(c) that it is always `≤ 0`. With the spec-worded `Range.calculate` these are
contradictory at the activated range `{high := 110, low := 100}` (the very
range of the repository's own test): `-(low - high)/high = 1/11`, which is
positive and differs from `(low - high)/high = -1/11`. -/
theorem drawdown_calculate_spec_words_counterexample :
    (Range.activated ⟨true, 110, 100⟩ = true) ∧
    -(Range.calculateSpecWords ⟨true, 110, 100⟩) / (Range.high ⟨true, 110, 100⟩) = 1 / 11 ∧
    ¬(-(Range.calculateSpecWords ⟨true, 110, 100⟩) / (Range.high ⟨true, 110, 100⟩) ≤ 0) ∧
    -(Range.calculateSpecWords ⟨true, 110, 100⟩) / (Range.high ⟨true, 110, 100⟩)
      ≠ ((Range.low ⟨true, 110, 100⟩) - (Range.high ⟨true, 110, 100⟩))
          / (Range.high ⟨true, 110, 100⟩) := by
  norm_num [Range.calculateSpecWords]

/-- C2, amended: `Range.calculate()` returns `high - low` (as the repository's
unit tests and the spec's own concrete scenario require, not the spec §4.1
words `low - high`); for every activated equity range with `low ≤ high` and
`0 < high`, the live drawdown value `Drawdown.calculate` — computed by the
code as the negation of `Range.calculate()` divided by `high` — equals
`(low - high)/high` and is always `≤ 0`. -/
theorem drawdown_calculate_nonpositive (s : Drawdown)
    (_hact : s.equity_range.activated = true)
    (hlh : s.equity_range.low ≤ s.equity_range.high)
    (hpos : 0 < s.equity_range.high) :
    s.equity_range.calculate = s.equity_range.high - s.equity_range.low ∧
    s.calculate = -(s.equity_range.calculate) / s.equity_range.high ∧
    s.calculate = (s.equity_range.low - s.equity_range.high) / s.equity_range.high ∧
    s.calculate ≤ 0 := by
  refine ⟨rfl, rfl, ?_, ?_⟩
  · simp [Drawdown.calculate, Range.calculate, neg_sub]
  · have h1 : s.equity_range.low - s.equity_range.high ≤ 0 := by linarith
    have h2 : (s.equity_range.low - s.equity_range.high) / s.equity_range.high ≤ 0 :=
      div_nonpos_iff.mpr (Or.inr ⟨h1, le_of_lt hpos⟩)
    calc s.calculate = (s.equity_range.low - s.equity_range.high) / s.equity_range.high := by
          simp [Drawdown.calculate, Range.calculate, neg_sub]
      _ ≤ 0 := h2

/-- Witness for C2's amended theorem: the range `{high := 110, low := 100}`
gives live drawdown `-1/11 ≤ 0`. -/
theorem drawdown_calculate_nonpositive_witness :
    Drawdown.calculate ⟨⟨true, 110, 100⟩, -1/11, 0, 0⟩ = (100 - 110) / 110 ∧
    Drawdown.calculate ⟨⟨true, 110, 100⟩, -1/11, 0, 0⟩ ≤ 0 := by
  have h := drawdown_calculate_nonpositive ⟨⟨true, 110, 100⟩, -1/11, 0, 0⟩
    (by norm_num) (by norm_num) (by norm_num)
  exact ⟨h.2.2.1, h.2.2.2⟩

/-- C3: for every `Drawdown` in an active episode (not waiting for a peak),
an update with equity exactly equal to the current peak `high` is a state-C
continuation, not a state-D end: `update` returns `None` and the next state
is the C-branch state; generally, a completed episode is emitted iff the
state is not waiting and the equity is strictly greater than `high`. -/
theorem drawdown_equal_peak_continues :
    (∀ (s : Drawdown) (c : EquityPoint), ¬s.is_waiting_for_peak →
      c.equity = s.equity_range.high →
      (s.update c).2 = none ∧
      (s.update c).1 =
        { s with
            duration := c.timestamp - s.start_timestamp
            equity_range := s.equity_range.update c.equity
            drawdown := Drawdown.calculate
              { s with
                  duration := c.timestamp - s.start_timestamp
                  equity_range := s.equity_range.update c.equity } }) ∧
    (∀ (s : Drawdown) (c : EquityPoint),
      (s.update c).2.isSome = true ↔
        (¬s.is_waiting_for_peak ∧ c.equity > s.equity_range.high)) := by
  constructor
  · intro s c hw heq
    have hng : ¬c.equity > s.equity_range.high := by
      rw [heq]
      exact lt_irrefl _
    constructor
    · simp only [Drawdown.update, if_neg hw, if_neg hng]
    · simp only [Drawdown.update, if_neg hw, if_neg hng]
  · intro s c
    by_cases hw : s.is_waiting_for_peak <;> by_cases hg : c.equity > s.equity_range.high <;>
      simp [Drawdown.update, hw, hg]

/-- Witness for C3: in an episode with peak 110 and low 90, an equity point
back at exactly 110 emits nothing. -/
theorem drawdown_equal_peak_continues_witness :
    ((⟨⟨true, 110, 90⟩, -20/110, 2 * msPerDay, msPerDay⟩ : Drawdown).update
        ⟨110, 3 * msPerDay⟩).2 = none := by
  exact (drawdown_equal_peak_continues.1 ⟨⟨true, 110, 90⟩, -20/110, 2 * msPerDay, msPerDay⟩
    ⟨110, 3 * msPerDay⟩ (by norm_num [Drawdown.is_waiting_for_peak]) (by norm_num)).1

/-- Helper: from a waiting state whose peak does not exceed the first
observation, a strictly increasing equity stream keeps the state waiting
(drawdown 0) and never emits a completed episode. -/
lemma processAll_waiting_monotone (pts : List EquityPoint) :
    ∀ s : Drawdown, s.drawdown = 0 →
      pts.Chain' (fun p q => p.equity < q.equity) →
      (∀ p ∈ pts.head?, s.equity_range.high ≤ p.equity) →
      (s.processAll pts).2 = [] ∧ (s.processAll pts).1.drawdown = 0 := by
  induction pts with
  | nil =>
    intro s h0 _ _
    exact ⟨rfl, h0⟩
  | cons p ps ih =>
    intro s h0 hch hhd
    have hw : s.is_waiting_for_peak := h0
    have hhp : s.equity_range.high ≤ p.equity := hhd p rfl
    have hch' := List.chain'_cons'.mp hch
    rcases lt_or_eq_of_le hhp with hlt | heq
    · -- state A: equity strictly above the peak
      have hupd : s.update p =
          ({ s with equity_range := { s.equity_range with high := p.equity } }, none) := by
        simp only [Drawdown.update, if_pos hw, if_pos hlt]
      have hnext := ih { s with equity_range := { s.equity_range with high := p.equity } }
        h0 hch'.2 (fun q hq => le_of_lt (hch'.1 q hq))
      simp only [Drawdown.processAll, hupd, Option.toList_none, List.nil_append]
      exact hnext
    · -- equity exactly at the peak: state B with a zero recomputed drawdown
      have hng : ¬p.equity > s.equity_range.high := by
        rw [← heq]
        exact lt_irrefl _
      have hupd : s.update p =
          ({ s with
              start_timestamp := p.timestamp
              equity_range := { s.equity_range with low := p.equity }
              drawdown := Drawdown.calculate
                { s with
                    start_timestamp := p.timestamp
                    equity_range := { s.equity_range with low := p.equity } } }, none) := by
        simp only [Drawdown.update, if_pos hw, if_neg hng]
      have hzero : Drawdown.calculate
          { s with
              start_timestamp := p.timestamp
              equity_range := { s.equity_range with low := p.equity } } = 0 := by
        simp [Drawdown.calculate, Range.calculate, ← heq]
      have hnext := ih
        { s with
            start_timestamp := p.timestamp
            equity_range := { s.equity_range with low := p.equity }
            drawdown := Drawdown.calculate
              { s with
                  start_timestamp := p.timestamp
                  equity_range := { s.equity_range with low := p.equity } } }
        hzero hch'.2 (fun q hq => le_of_lt (heq ▸ hch'.1 q hq))
      simp only [Drawdown.processAll, hupd, Option.toList_none, List.nil_append]
      exact hnext

/-- C4, counterexample: the claim as stated is false — a strictly increasing
sequence of observations *can* emit a completed episode when its first
observation is below the starting equity. Starting equity 100 and the
strictly increasing sequence `[50, 200]` emits an episode at the 200 update
(drawdown `-1/2`). -/
theorem drawdown_increasing_emits_episode_counterexample :
    (50 : ℚ) < 200 ∧
    ((Drawdown.init 100 0).processAll [⟨50, msPerDay⟩, ⟨200, 2 * msPerDay⟩]).2
      = [{ equity_range := { activated := true, high := 100, low := 50 }
           drawdown := -1/2, start_timestamp := msPerDay, duration := 0 }] := by
  constructor
  · norm_num
  · norm_num [Drawdown.processAll, Drawdown.update, Drawdown.init, Drawdown.is_waiting_for_peak,
      Drawdown.calculate, Range.update, Range.calculate]

/-- C4, amended: for every strictly increasing sequence of equity
observations whose first observation is at least the starting equity, fed to
a `Drawdown` initialized with that starting equity, no completed episode is
ever emitted (state A throughout), so `MaxDrawdown` and `AvgDrawdown` fed
only from such a stream remain at their initial zero state. -/
theorem drawdown_monotone_from_start_no_episode (start : ℚ) (t0 now : ℤ)
    (pts : List EquityPoint)
    (hch : pts.Chain' (fun p q => p.equity < q.equity))
    (hhd : ∀ p ∈ pts.head?, start ≤ p.equity) :
    ((Drawdown.init start t0).processAll pts).2 = [] ∧
    ((Drawdown.init start t0).processAll pts).2.foldl MaxDrawdown.update (MaxDrawdown.init now)
      = MaxDrawdown.init now ∧
    ((Drawdown.init start t0).processAll pts).2.foldl AvgDrawdown.update AvgDrawdown.init
      = AvgDrawdown.init := by
  have h := processAll_waiting_monotone pts (Drawdown.init start t0) rfl hch hhd
  refine ⟨h.1, ?_, ?_⟩ <;> rw [h.1] <;> rfl

/-- Witness for C4's amended theorem: starting equity 100 with the strictly
increasing stream `[110, 120]` emits nothing. -/
theorem drawdown_monotone_from_start_no_episode_witness :
    ((Drawdown.init 100 0).processAll [⟨110, msPerDay⟩, ⟨120, 2 * msPerDay⟩]).2 = [] ∧
    ((Drawdown.init 100 0).processAll
        [⟨110, msPerDay⟩, ⟨120, 2 * msPerDay⟩]).2.foldl AvgDrawdown.update AvgDrawdown.init
      = AvgDrawdown.init := by
  have h := drawdown_monotone_from_start_no_episode 100 0 0
    [⟨110, msPerDay⟩, ⟨120, 2 * msPerDay⟩]
    (by constructor <;> norm_num)
    (by intro p hp; simp at hp; rw [← hp]; norm_num)
  exact ⟨h.1, h.2.2⟩

/-- C5: `MaxDrawdown.update(candidate)` replaces the stored drawdown iff
`|candidate.drawdown| > |stored.drawdown|` (strict — ties keep the existing
earlier maximum), so re-applying the same episode, or any episode of equal or
smaller magnitude, leaves the stored `MaxDrawdown` unchanged. -/
theorem max_drawdown_update_strict_and_idempotent :
    (∀ (m : MaxDrawdown) (d : Drawdown),
      |d.drawdown| > |m.drawdown.drawdown| → m.update d = { drawdown := d }) ∧
    (∀ (m : MaxDrawdown) (d : Drawdown),
      |d.drawdown| ≤ |m.drawdown.drawdown| → m.update d = m) ∧
    (∀ (m : MaxDrawdown) (d : Drawdown), (m.update d).update d = m.update d) := by
  refine ⟨?_, ?_, ?_⟩
  · intro m d h
    simp only [MaxDrawdown.update, if_pos h]
  · intro m d h
    simp only [MaxDrawdown.update, if_neg (not_lt.mpr h)]
  · intro m d
    by_cases h : |d.drawdown| > |m.drawdown.drawdown|
    · simp [MaxDrawdown.update, if_pos h]
    · simp [MaxDrawdown.update, if_neg h]

/-- Witness for C5: a stored max of magnitude `1/2` is unchanged by
re-submitting an episode of the same magnitude (tie), and replaced by one of
magnitude `3/4`. -/
theorem max_drawdown_update_strict_and_idempotent_witness :
    MaxDrawdown.update ⟨⟨⟨true, 100, 50⟩, -1/2, 0, msPerDay⟩⟩
        ⟨⟨true, 200, 100⟩, -1/2, 0, msPerDay⟩
      = ⟨⟨⟨true, 100, 50⟩, -1/2, 0, msPerDay⟩⟩ ∧
    MaxDrawdown.update ⟨⟨⟨true, 100, 50⟩, -1/2, 0, msPerDay⟩⟩
        ⟨⟨true, 200, 50⟩, -3/4, 0, msPerDay⟩
      = ⟨⟨⟨true, 200, 50⟩, -3/4, 0, msPerDay⟩⟩ := by
  constructor
  · exact max_drawdown_update_strict_and_idempotent.2.1
      ⟨⟨⟨true, 100, 50⟩, -1/2, 0, msPerDay⟩⟩ ⟨⟨true, 200, 100⟩, -1/2, 0, msPerDay⟩
      (by norm_num)
  · exact max_drawdown_update_strict_and_idempotent.1
      ⟨⟨⟨true, 100, 50⟩, -1/2, 0, msPerDay⟩⟩ ⟨⟨true, 200, 50⟩, -3/4, 0, msPerDay⟩
      (by norm_num [abs_of_nonpos])

/-- Helper: folding `AvgDrawdown.update` over a list of episodes adds the list
length to the count and keeps `mean_drawdown * count` equal to the running sum
of drawdown values. -/
lemma avgDrawdown_foldl_count_mean (ds : List Drawdown) :
    ∀ s : AvgDrawdown,
      (ds.foldl AvgDrawdown.update s).count = s.count + ds.length ∧
      (ds.foldl AvgDrawdown.update s).mean_drawdown * ((s.count + ds.length : ℕ) : ℚ)
        = s.mean_drawdown * (s.count : ℚ) + (ds.map Drawdown.drawdown).sum := by
  induction ds with
  | nil =>
    intro s
    simp
  | cons d ds ih =>
    intro s
    have hstep : (AvgDrawdown.update s d).count = s.count + 1 := rfl
    have hmean : (AvgDrawdown.update s d).mean_drawdown * ((s.count : ℚ) + 1)
        = s.mean_drawdown * (s.count : ℚ) + d.drawdown := by
      show (s.mean_drawdown + (d.drawdown - s.mean_drawdown) / ((s.count + 1 : ℕ) : ℚ))
          * ((s.count : ℚ) + 1)
        = s.mean_drawdown * (s.count : ℚ) + d.drawdown
      have hne : ((s.count : ℚ) + 1) ≠ 0 := by positivity
      push_cast
      field_simp
      ring
    have hrec := ih (AvgDrawdown.update s d)
    constructor
    · simp only [List.foldl_cons, hrec.1, hstep, List.length_cons]
      omega
    · have h1 := hrec.2
      rw [hstep] at h1
      have hcast : ((s.count + 1 + ds.length : ℕ) : ℚ) = ((s.count + (d :: ds).length : ℕ) : ℚ) := by
        push_cast [List.length_cons]
        ring
      rw [hcast] at h1
      simp only [List.foldl_cons, h1, List.map_cons, List.sum_cons]
      have h2 : (AvgDrawdown.update s d).mean_drawdown * ((s.count + 1 : ℕ) : ℚ)
          = s.mean_drawdown * (s.count : ℚ) + d.drawdown := by
        push_cast
        exact hmean
      rw [h2]
      ring

/-- C6: `AvgDrawdown.update` increments the count by one and updates
`mean_drawdown` by Welford's incremental mean
`mean_n = mean_{n-1} + (x_n - mean_{n-1})/n`, so after `n` completed episodes
`mean_drawdown` is the arithmetic mean of their drawdown values; in
particular three episodes with drawdowns `-1/2, -1/2, -18/100` yield
`mean_drawdown = -59/150` exactly. -/
theorem avg_drawdown_welford_mean :
    (∀ (a : AvgDrawdown) (d : Drawdown),
      (a.update d).count = a.count + 1 ∧
      (a.update d).mean_drawdown
        = a.mean_drawdown + (d.drawdown - a.mean_drawdown) / ((a.count : ℚ) + 1)) ∧
    (∀ ds : List Drawdown, ds ≠ [] →
      (ds.foldl AvgDrawdown.update AvgDrawdown.init).count = ds.length ∧
      (ds.foldl AvgDrawdown.update AvgDrawdown.init).mean_drawdown
        = (ds.map Drawdown.drawdown).sum / (ds.length : ℚ)) ∧
    ([⟨⟨true, 100, 50⟩, -1/2, 0, 2 * msPerDay⟩,
      ⟨⟨true, 200, 100⟩, -1/2, 0, 2 * msPerDay⟩,
      ⟨⟨true, 1000, 820⟩, -18/100, 0, 5 * msPerDay⟩].foldl
        AvgDrawdown.update AvgDrawdown.init).mean_drawdown = -59/150 := by
  refine ⟨?_, ?_, ?_⟩
  · intro a d
    refine ⟨rfl, ?_⟩
    show a.mean_drawdown + (d.drawdown - a.mean_drawdown) / ((a.count + 1 : ℕ) : ℚ)
      = a.mean_drawdown + (d.drawdown - a.mean_drawdown) / ((a.count : ℚ) + 1)
    push_cast
    ring
  · intro ds hne
    have h := avgDrawdown_foldl_count_mean ds AvgDrawdown.init
    have hcount : (ds.foldl AvgDrawdown.update AvgDrawdown.init).count = ds.length := by
      simpa [AvgDrawdown.init] using h.1
    have hlen : ((ds.length : ℚ)) ≠ 0 := Nat.cast_ne_zero.mpr (List.length_pos.mpr hne).ne'
    have hmean : (ds.foldl AvgDrawdown.update AvgDrawdown.init).mean_drawdown * (ds.length : ℚ)
        = (ds.map Drawdown.drawdown).sum := by
      have h2 := h.2
      simpa [AvgDrawdown.init] using h2
    exact ⟨hcount, (eq_div_iff hlen).mpr hmean⟩
  · norm_num [List.foldl_cons, AvgDrawdown.update, AvgDrawdown.init,
      welford_online.calculate_mean, welford_online.calculate_mean_int]

/-- Witness for C6: the mean of the single-episode stream `[-1/2]` is `-1/2`,
obtained from the arithmetic-mean clause at a concrete nonempty list. -/
theorem avg_drawdown_welford_mean_witness :
    ([⟨⟨true, 100, 50⟩, -1/2, 0, 2 * msPerDay⟩].foldl
        AvgDrawdown.update AvgDrawdown.init).mean_drawdown
      = ([⟨⟨true, 100, 50⟩, -1/2, 0, 2 * msPerDay⟩].map Drawdown.drawdown).sum
          / (([⟨⟨true, 100, 50⟩, (-1)/2, 0, 2 * msPerDay⟩] : List Drawdown).length : ℚ) :=
  (avg_drawdown_welford_mean.2.1 [⟨⟨true, 100, 50⟩, -1/2, 0, 2 * msPerDay⟩]
    (by simp)).2

/-- C7: `EngineBuilder.build()` succeeds and returns an `Engine` iff all six
required fields (`engine_id`, `command_rx`, `trader_commander`, `statistics`,
`portfolio`, `traders`) have been supplied; if any one is missing, `build()`
returns the `BuilderIncomplete` error and no partial `Engine` is produced. -/
theorem engine_builder_build_complete_iff :
    ∀ {Uuid CommandRx Commander Statistic Portfolio Trader : Type}
      (b : EngineBuilder Uuid CommandRx Commander Statistic Portfolio Trader),
      ((∃ e, b.build = .ok e) ↔
        (b.engine_id.isSome = true ∧ b.command_rx.isSome = true ∧
         b.trader_commander.isSome = true ∧ b.statistics.isSome = true ∧
         b.portfolio.isSome = true ∧ b.traders.isSome = true)) ∧
      (¬(b.engine_id.isSome = true ∧ b.command_rx.isSome = true ∧
         b.trader_commander.isSome = true ∧ b.statistics.isSome = true ∧
         b.portfolio.isSome = true ∧ b.traders.isSome = true) →
        b.build = .error .builderIncomplete) := by
  intro Uuid CommandRx Commander Statistic Portfolio Trader b
  obtain ⟨i, r, c, st, pf, tr⟩ := b
  cases i <;> cases r <;> cases c <;> cases st <;> cases pf <;> cases tr <;>
    simp [EngineBuilder.build, okOr, Bind.bind, Except.bind, Pure.pure, Except.pure]

/-- Witness for C7: a builder missing only `engine_id` fails with
`BuilderIncomplete`, and the fully supplied builder succeeds. -/
theorem engine_builder_build_complete_iff_witness :
    (EngineBuilder.build
        { engine_id := none, command_rx := some (), trader_commander := some ()
          statistics := some (), portfolio := some (), traders := some []
          : EngineBuilder Unit Unit Unit Unit Unit Unit }
      = .error .builderIncomplete) ∧
    (∃ e, EngineBuilder.build
        { engine_id := some (), command_rx := some (), trader_commander := some ()
          statistics := some (), portfolio := some (), traders := some []
          : EngineBuilder Unit Unit Unit Unit Unit Unit }
      = .ok e) := by
  constructor
  · exact (engine_builder_build_complete_iff
      { engine_id := none, command_rx := some (), trader_commander := some ()
        statistics := some (), portfolio := some (), traders := some [] }).2
      (by simp)
  · exact (engine_builder_build_complete_iff
      { engine_id := some (), command_rx := some (), trader_commander := some ()
        statistics := some (), portfolio := some (), traders := some [] }).1.mpr
      (by simp)

/-- C8: `Engine.run`'s wait loop resolves via the earliest of the three
events — all Traders finishing organically, receipt of a `Terminate` command,
or closure of the command channel (`None`, treated identically to an explicit
terminate) — and on every such resolution proceeds to summary extraction,
reporting "no TradingSummary available" when the portfolio has no exited
positions; an Engine with zero Workers and an immediately closed command
inbox reaches this shutdown outcome. -/
theorem engine_run_resolution_and_summary :
    (∀ rest : List RunEvent, Engine.selectLoop (.tradersFinished :: rest) = .shutdown) ∧
    (∀ (msg : String) (rest : List RunEvent),
      Engine.selectLoop (.commandReceived (.terminate msg) :: rest) = .shutdown) ∧
    (∀ rest : List RunEvent, Engine.selectLoop (.channelClosed :: rest) = .shutdown) ∧
    (∀ (msg : String) (rest : List RunEvent),
      Engine.selectLoop (.channelClosed :: rest)
        = Engine.selectLoop (.commandReceived (.terminate msg) :: rest)) ∧
    (∀ {ε Position : Type} (events : List RunEvent)
        (ex : Except ε (Option (List Position))),
      Engine.selectLoop events = .shutdown →
      Engine.runModel events ex = (Engine.generateSummary ex).toRunOutcome) ∧
    (∀ {ε Position : Type} (events : List RunEvent),
      Engine.selectLoop events = .shutdown →
      Engine.runModel events (Except.ok (none : Option (List Position)) : Except ε _)
        = .noSummaryInfo) ∧
    (Engine.runModel [RunEvent.channelClosed]
        (Except.ok (none : Option (List Unit)) : Except Unit _) = .noSummaryInfo) ∧
    (Engine.runModel [RunEvent.tradersFinished]
        (Except.ok (none : Option (List Unit)) : Except Unit _) = .noSummaryInfo) := by
  refine ⟨fun _ => rfl, fun _ _ => rfl, fun _ => rfl, fun _ _ => rfl, ?_, ?_, rfl, rfl⟩
  · intro ε Position events ex h
    simp [Engine.runModel, h]
  · intro ε Position events h
    simp [Engine.runModel, h, Engine.generateSummary, SummaryOutcome.toRunOutcome]

/-- Witness for C8: the shutdown-implies-summary clause applied to the
concrete one-event trace in which the command channel closes immediately. -/
theorem engine_run_resolution_and_summary_witness :
    Engine.runModel [RunEvent.channelClosed]
        (Except.ok (some [()]) : Except Unit (Option (List Unit)))
      = (Engine.generateSummary
          (Except.ok (some [()]) : Except Unit (Option (List Unit)))).toRunOutcome :=
  engine_run_resolution_and_summary.2.2.2.2.1 [RunEvent.channelClosed]
    (Except.ok (some [()])) rfl

/-- C9: the Engine's top-level command arbitration handles only `Terminate`
(breaking out of the wait loop); every other received command
(`ExitAllPositions` or `ExitPosition`) reaches the unconditional `todo!()`
panic instead of being routed to any worker. -/
theorem engine_command_arbitration :
    (∀ (msg : String) (rest : List RunEvent),
      Engine.selectLoop (.commandReceived (.terminate msg) :: rest) = .shutdown) ∧
    (∀ rest : List RunEvent,
      Engine.selectLoop (.commandReceived .exitAllPositions :: rest) = .todoPanic) ∧
    (∀ (id : PositionId) (rest : List RunEvent),
      Engine.selectLoop (.commandReceived (.exitPosition id) :: rest) = .todoPanic) ∧
    (∀ (c : Command) (rest : List RunEvent), (∀ msg, c ≠ .terminate msg) →
      Engine.selectLoop (.commandReceived c :: rest) = .todoPanic) := by
  refine ⟨fun _ _ => rfl, fun _ => rfl, fun _ _ => rfl, ?_⟩
  intro c rest h
  cases c with
  | terminate msg => exact absurd rfl (h msg)
  | exitAllPositions => rfl
  | exitPosition id => rfl

/-- Witness for C9: the non-`Terminate` clause at the concrete command
`ExitAllPositions`. -/
theorem engine_command_arbitration_witness :
    Engine.selectLoop [.commandReceived .exitAllPositions] = .todoPanic :=
  engine_command_arbitration.2.2.2 .exitAllPositions []
    (by intro msg h; exact Command.noConfusion h)

/-- C10: during end-of-run summary extraction, `Engine.run` unwraps the
result of `get_exited_positions`: an `Err` value makes it panic instead of
reporting the failure; the non-panicking outcomes are exactly the
informational "no TradingSummary" report for `Ok(None)` and summary
generation plus printing for `Ok(Some(..))`. -/
theorem engine_summary_unwrap :
    (∀ {ε Position : Type} (err : ε),
      Engine.generateSummary (.error err) = (.unwrapPanic : SummaryOutcome Position)) ∧
    (∀ {ε Position : Type},
      Engine.generateSummary (Except.ok (none : Option (List Position)) : Except ε _)
        = .noSummaryInfo) ∧
    (∀ {ε Position : Type} (ps : List Position),
      Engine.generateSummary (Except.ok (some ps) : Except ε _) = .summaryPrinted ps) ∧
    (∀ {ε Position : Type} (events : List RunEvent) (err : ε),
      Engine.selectLoop events = .shutdown →
      Engine.runModel events (Except.error err : Except ε (Option (List Position)))
        = .unwrapPanic) := by
  refine ⟨fun _ => rfl, rfl, fun _ => rfl, ?_⟩
  intro ε Position events err h
  simp [Engine.runModel, h, Engine.generateSummary, SummaryOutcome.toRunOutcome]

/-- Witness for C10: a failing `get_exited_positions` at a concrete shutdown
trace panics the run. -/
theorem engine_summary_unwrap_witness :
    Engine.runModel [RunEvent.channelClosed]
        (Except.error () : Except Unit (Option (List Unit))) = .unwrapPanic :=
  engine_summary_unwrap.2.2.2 [RunEvent.channelClosed] () rfl

end Barter
